import Mathlib

/-!
Verification of the geometry / physics / terrain core of the RotatingSphere
demo collection.

The development shallowly embeds the C++ sources:
  * `MainApp` models `src/main.cpp` (the rolling-ball game): `Vec3`, `Mat4`,
    `MetaBall`, `Obstacle`, `Terrain::getHeight`, the procedural mesh
    generators and `Game::update`.
  * `ObjApp` models `src/load_obj_model.cpp`: its `Vec3` (which differs from
    the game's) and `OBJLoader::loadOBJ`.
  * `Viewport` models the orbit-camera callbacks of
    `model_rendering_viewport.cpp`.

Conventions of the embedding:
  * `float` values are modelled as rationals (`ℚ`); decimal float literals are
    embedded as the decimal value they denote (e.g. `0.1f` as `1/10`).
  * Calls to `sqrt`, `sin` and `cos` do not stay inside `ℚ`; every definition
    that needs one takes the corresponding function as an explicit parameter
    (`sqrtF`, `sinF`, `cosF`, or the abstract colour / normal generators of
    the OBJ loader), and the theorems hold for every choice of parameter.
    Guards of the form `sqrt e > c` with `c ≥ 0` are equivalently expressed
    on the radicand (`e > c^2`) where a definition must stay executable.
  * Comparisons `length() < r` (with `length = sqrt (lengthSq)`) are embedded
    by the exactly equivalent rational test `0 < r ∧ lengthSq < r^2`.
  * Undefined behaviour of the source (out-of-range `std::vector` indexing in
    the OBJ face parser) is made explicit: the affected function returns
    `Option`, with `none` marking an execution that is undefined in C++.
-/

namespace RotSphere

/-- Truncation toward zero, the behaviour of C++ `static_cast<int>` on a
floating-point value. -/
def truncQ (q : ℚ) : ℤ := if q < 0 then ⌈q⌉ else ⌊q⌋

/-- C `fmod`: `fmod a b = a - trunc (a / b) * b`, the remainder with the sign
of `a`. -/
def fmodQ (a b : ℚ) : ℚ := a - (truncQ (a / b) : ℚ) * b

theorem truncQ_neg_of_le_neg_one {q : ℚ} (h : q ≤ -1) : truncQ q < 0 := by
  have hq : q < 0 := lt_of_le_of_lt h (by norm_num)
  rw [truncQ, if_pos hq]
  have : (⌈q⌉ : ℤ) ≤ -1 := by
    have := Int.ceil_le_ceil h
    simpa using this
  omega

theorem truncQ_ge_of_ge {q : ℚ} {n : ℤ} (hn : 0 ≤ n) (h : (n : ℚ) ≤ q) :
    n ≤ truncQ q := by
  have hq : ¬ q < 0 := by
    push_neg
    exact le_trans (by exact_mod_cast hn) h
  rw [truncQ, if_neg hq]
  exact Int.le_floor.mpr h

theorem truncQ_nonneg {q : ℚ} (h : 0 ≤ q) : 0 ≤ truncQ q :=
  truncQ_ge_of_ge le_rfl (by exact_mod_cast h)

theorem fmodQ_div_mem_Ico {a g : ℚ} (hg : 0 < g) (ha : 0 ≤ a) :
    0 ≤ fmodQ a g / g ∧ fmodQ a g / g < 1 := by
  have hg' : g ≠ 0 := ne_of_gt hg
  have hq : 0 ≤ a / g := div_nonneg ha (le_of_lt hg)
  have htr : truncQ (a / g) = ⌊a / g⌋ := by
    rw [truncQ, if_neg (not_lt.mpr hq)]
  have hval : fmodQ a g / g = Int.fract (a / g) := by
    rw [fmodQ, htr, Int.fract]
    field_simp
    ring
  rw [hval]
  exact ⟨Int.fract_nonneg _, Int.fract_lt_one _⟩

namespace MainApp

/-- The 3D vector of `src/main.cpp` (`struct Vec3`). -/
structure Vec3 where
  x : ℚ
  y : ℚ
  z : ℚ
deriving DecidableEq, Repr

instance : Add Vec3 := ⟨fun a b => ⟨a.x + b.x, a.y + b.y, a.z + b.z⟩⟩

instance : Sub Vec3 := ⟨fun a b => ⟨a.x - b.x, a.y - b.y, a.z - b.z⟩⟩

instance : Neg Vec3 := ⟨fun a => ⟨-a.x, -a.y, -a.z⟩⟩

instance : HMul Vec3 ℚ Vec3 := ⟨fun a s => ⟨a.x * s, a.y * s, a.z * s⟩⟩

/-- `Vec3::operator/`: division guarded against a near-zero divisor, the
fallback being the zero vector. -/
def Vec3.divQ (v : Vec3) (s : ℚ) : Vec3 :=
  if |s| > 1/10000 then ⟨v.x / s, v.y / s, v.z / s⟩ else ⟨0, 0, 0⟩

/-- `Vec3::lengthSquared`. -/
def Vec3.lengthSq (v : Vec3) : ℚ := v.x * v.x + v.y * v.y + v.z * v.z

/-- `Vec3::dot`. -/
def Vec3.dotQ (a b : Vec3) : ℚ := a.x * b.x + a.y * b.y + a.z * b.z

/-- `Vec3::cross`. -/
def Vec3.crossQ (a b : Vec3) : Vec3 :=
  ⟨a.y * b.z - a.z * b.y, a.z * b.x - a.x * b.z, a.x * b.y - a.y * b.x⟩

/-- `Vec3::lerp`. -/
def Vec3.lerpQ (a b : Vec3) (t : ℚ) : Vec3 := a * (1 - t) + b * t

/-- `Vec3::normalize`, parametrised by the square-root function `sqrtF` used
for `length()`; the guard `l > 0.0001f` is kept on the sqrt value. -/
def Vec3.normalizeWith (sqrtF : ℚ → ℚ) (v : Vec3) : Vec3 :=
  let l := sqrtF v.lengthSq
  if l > 1/10000 then v.divQ l else ⟨0, 1, 0⟩

/-- The 4×4 matrix of `struct Mat4`: `M i j` is the flat entry `m[i*4+j]`. -/
def Mat4 : Type := Fin 4 → Fin 4 → ℚ

/-- `Mat4::operator*`: `result.m[i*4+j] = Σ_k m[i*4+k] * other.m[k*4+j]`,
with the inner `k`-loop unrolled. -/
def Mat4.mul (a b : Mat4) : Mat4 := fun i j =>
  a i 0 * b 0 j + a i 1 * b 1 j + a i 2 * b 2 j + a i 3 * b 3 j

/-- `Mat4::identity()`: ones on the diagonal, zeros elsewhere. -/
def Mat4.identityM : Mat4 := fun i j => if i = j then 1 else 0

/-- A vertex of `src/main.cpp` (`struct Vertex`): position, normal, colour. -/
structure Vertex where
  position : Vec3
  normal : Vec3
  color : Vec3
deriving DecidableEq, Repr

/-- The CPU-side part of `struct Mesh`: vertex list and triangle index list. -/
structure Mesh where
  vertices : List Vertex
  indices : List ℕ
deriving DecidableEq, Repr

/-- `generateCube()`: 24 vertices (four per face, duplicated for hard-edge
normals) and 36 indices. -/
def generateCube : Mesh where
  vertices :=
    [⟨⟨-1/2, -1/2, 1/2⟩, ⟨0, 0, 1⟩, ⟨1, 1, 1⟩⟩,
     ⟨⟨1/2, -1/2, 1/2⟩, ⟨0, 0, 1⟩, ⟨1, 1, 1⟩⟩,
     ⟨⟨1/2, 1/2, 1/2⟩, ⟨0, 0, 1⟩, ⟨1, 1, 1⟩⟩,
     ⟨⟨-1/2, 1/2, 1/2⟩, ⟨0, 0, 1⟩, ⟨1, 1, 1⟩⟩,
     ⟨⟨-1/2, -1/2, -1/2⟩, ⟨0, 0, -1⟩, ⟨1, 1, 1⟩⟩,
     ⟨⟨-1/2, 1/2, -1/2⟩, ⟨0, 0, -1⟩, ⟨1, 1, 1⟩⟩,
     ⟨⟨1/2, 1/2, -1/2⟩, ⟨0, 0, -1⟩, ⟨1, 1, 1⟩⟩,
     ⟨⟨1/2, -1/2, -1/2⟩, ⟨0, 0, -1⟩, ⟨1, 1, 1⟩⟩,
     ⟨⟨-1/2, -1/2, -1/2⟩, ⟨-1, 0, 0⟩, ⟨1, 1, 1⟩⟩,
     ⟨⟨-1/2, -1/2, 1/2⟩, ⟨-1, 0, 0⟩, ⟨1, 1, 1⟩⟩,
     ⟨⟨-1/2, 1/2, 1/2⟩, ⟨-1, 0, 0⟩, ⟨1, 1, 1⟩⟩,
     ⟨⟨-1/2, 1/2, -1/2⟩, ⟨-1, 0, 0⟩, ⟨1, 1, 1⟩⟩,
     ⟨⟨1/2, -1/2, 1/2⟩, ⟨1, 0, 0⟩, ⟨1, 1, 1⟩⟩,
     ⟨⟨1/2, -1/2, -1/2⟩, ⟨1, 0, 0⟩, ⟨1, 1, 1⟩⟩,
     ⟨⟨1/2, 1/2, -1/2⟩, ⟨1, 0, 0⟩, ⟨1, 1, 1⟩⟩,
     ⟨⟨1/2, 1/2, 1/2⟩, ⟨1, 0, 0⟩, ⟨1, 1, 1⟩⟩,
     ⟨⟨-1/2, 1/2, 1/2⟩, ⟨0, 1, 0⟩, ⟨1, 1, 1⟩⟩,
     ⟨⟨1/2, 1/2, 1/2⟩, ⟨0, 1, 0⟩, ⟨1, 1, 1⟩⟩,
     ⟨⟨1/2, 1/2, -1/2⟩, ⟨0, 1, 0⟩, ⟨1, 1, 1⟩⟩,
     ⟨⟨-1/2, 1/2, -1/2⟩, ⟨0, 1, 0⟩, ⟨1, 1, 1⟩⟩,
     ⟨⟨-1/2, -1/2, -1/2⟩, ⟨0, -1, 0⟩, ⟨1, 1, 1⟩⟩,
     ⟨⟨1/2, -1/2, -1/2⟩, ⟨0, -1, 0⟩, ⟨1, 1, 1⟩⟩,
     ⟨⟨1/2, -1/2, 1/2⟩, ⟨0, -1, 0⟩, ⟨1, 1, 1⟩⟩,
     ⟨⟨-1/2, -1/2, 1/2⟩, ⟨0, -1, 0⟩, ⟨1, 1, 1⟩⟩]
  indices :=
    [0, 1, 2, 2, 3, 0,
     4, 5, 6, 6, 7, 4,
     8, 9, 10, 10, 11, 8,
     12, 13, 14, 14, 15, 12,
     16, 17, 18, 18, 19, 16,
     20, 21, 22, 22, 23, 20]

/-- `generatePyramid()`: a square base (4 vertices) and the apex. -/
def generatePyramid : Mesh where
  vertices :=
    [⟨⟨-1/2, 0, -1/2⟩, ⟨0, -1, 0⟩, ⟨1, 1, 1⟩⟩,
     ⟨⟨1/2, 0, -1/2⟩, ⟨0, -1, 0⟩, ⟨1, 1, 1⟩⟩,
     ⟨⟨1/2, 0, 1/2⟩, ⟨0, -1, 0⟩, ⟨1, 1, 1⟩⟩,
     ⟨⟨-1/2, 0, 1/2⟩, ⟨0, -1, 0⟩, ⟨1, 1, 1⟩⟩,
     ⟨⟨0, 1, 0⟩, ⟨0, 1, 0⟩, ⟨1, 1, 1⟩⟩]
  indices :=
    [0, 1, 2, 2, 3, 0,
     0, 1, 4, 1, 2, 4, 2, 3, 4, 3, 0, 4]

/-- The body of `generateCylinder`'s vertex loop at index `i`: the bottom
and top vertex at angle `theta = 2 * 3.14159 * i / segments`.  `cosF`/`sinF`
stand for the float `cos`/`sin`. -/
def cylinderVertsAt (cosF sinF : ℚ → ℚ) (segments i : ℕ) : List Vertex :=
  let theta : ℚ := 2 * (314159/100000) * i / segments
  let cx := cosF theta
  let sz := sinF theta
  [⟨⟨cx * (1/2), -1/2, sz * (1/2)⟩, ⟨cx, 0, sz⟩, ⟨1, 1, 1⟩⟩,
   ⟨⟨cx * (1/2), 1/2, sz * (1/2)⟩, ⟨cx, 0, sz⟩, ⟨1, 1, 1⟩⟩]

/-- The body of `generateCylinder`'s index loop at segment `i`
(`base = i * 2`). -/
def cylinderIdxAt (i : ℕ) : List ℕ :=
  [2 * i, 2 * i + 1, 2 * i + 2, 2 * i + 2, 2 * i + 1, 2 * i + 3]

/-- `generateCylinder(segments)`: a bottom/top vertex pair for each
`i = 0 … segments`, and six side indices per segment. -/
def generateCylinder (cosF sinF : ℚ → ℚ) (segments : ℕ) : Mesh where
  vertices := (List.range (segments + 1)).flatMap (cylinderVertsAt cosF sinF segments)
  indices := (List.range segments).flatMap cylinderIdxAt

/-- Index of the grid cell of a continuous coordinate, as computed by
`Terrain::getHeight`: `static_cast<int>((coord + extent/2) / gridSize)` with
`extent/2` the C++ integer division. -/
def Terrain.gridIx (extent : ℕ) (gridSize coord : ℚ) : ℤ :=
  truncQ ((coord + ((extent / 2 : ℕ) : ℚ)) / gridSize)

/-- `Terrain::getHeight(x, z)`: map to grid indices by C-style truncation,
return `0` when the bounds check fails, otherwise bilinearly interpolate the
four surrounding samples of the height map `hm` (indexed `hm zIndex xIndex`,
the flat `heightMap[z * width + x]` of the source). -/
def Terrain.getHeight (width depth : ℕ) (gridSize : ℚ) (hm : ℤ → ℤ → ℚ)
    (x z : ℚ) : ℚ :=
  let xi := Terrain.gridIx width gridSize x
  let zi := Terrain.gridIx depth gridSize z
  if xi < 0 ∨ (width : ℤ) - 1 ≤ xi ∨ zi < 0 ∨ (depth : ℤ) - 1 ≤ zi then 0
  else
    let xRatio := fmodQ (x + ((width / 2 : ℕ) : ℚ)) gridSize / gridSize
    let zRatio := fmodQ (z + ((depth / 2 : ℕ) : ℚ)) gridSize / gridSize
    let h1 := hm zi xi
    let h2 := hm zi (xi + 1)
    let h3 := hm (zi + 1) xi
    let h4 := hm (zi + 1) (xi + 1)
    let top := h1 * (1 - xRatio) + h2 * xRatio
    let bottom := h3 * (1 - xRatio) + h4 * xRatio
    top * (1 - zRatio) + bottom * zRatio

/-- The moving ball entity (`class MetaBall`). -/
structure MetaBall where
  position : Vec3
  velocity : Vec3
  acceleration : Vec3
  radius : ℚ
  color : Vec3
  rotationAngle : ℚ
  rotationSpeed : ℚ
  mass : ℚ
  elasticity : ℚ
  health : ℚ
  isAlive : Bool
deriving DecidableEq, Repr

/-- The default-constructed `MetaBall()`. -/
def MetaBall.init : MetaBall where
  position := ⟨0, 2, 0⟩
  velocity := ⟨0, 0, 0⟩
  acceleration := ⟨0, 0, 0⟩
  radius := 1/2
  color := ⟨2/10, 8/10, 9/10⟩
  rotationAngle := 0
  rotationSpeed := 2
  mass := 1
  elasticity := 8/10
  health := 100
  isAlive := true

/-- `MetaBall::update(deltaTime, gravity)`: explicit Euler integration, the
rotation-angle wrap, the `y = 0` ground bounce (reflect `velocity.y` by
`-elasticity`, then damp the whole velocity by `0.95`), and the positional
clamps to `x ∈ [-10, 10]`, `z ≥ -50`. -/
def MetaBall.update (dt : ℚ) (gravity : Vec3) (b : MetaBall) : MetaBall :=
  if b.isAlive = false then b
  else
    let acc := gravity
    let vel := b.velocity + acc * dt
    let pos := b.position + vel * dt
    let rot := b.rotationAngle + b.rotationSpeed * dt
    let rot := if rot > 360 then rot - 360 else rot
    let hit := pos.y - b.radius < 0
    let pos : Vec3 := if hit then ⟨pos.x, b.radius, pos.z⟩ else pos
    let vel : Vec3 :=
      if hit then (⟨vel.x, -vel.y * b.elasticity, vel.z⟩ : Vec3) * ((95:ℚ)/100)
      else vel
    let pos : Vec3 := if pos.x < -10 then ⟨-10, pos.y, pos.z⟩ else pos
    let pos : Vec3 := if pos.x > 10 then ⟨10, pos.y, pos.z⟩ else pos
    let pos : Vec3 := if pos.z < -50 then ⟨pos.x, pos.y, -50⟩ else pos
    { b with
      position := pos, velocity := vel, acceleration := acc,
      rotationAngle := rot }

/-- `MetaBall::takeDamage`. -/
def MetaBall.takeDamage (damage : ℚ) (b : MetaBall) : MetaBall :=
  let h := b.health - damage
  { b with health := h, isAlive := if h ≤ 0 then false else b.isAlive }

/-- A static obstacle (`class Obstacle`). -/
structure Obstacle where
  position : Vec3
  width : ℚ
  height : ℚ
  depth : ℚ
  color : Vec3
  isActive : Bool
  damage : ℚ
  type : ℕ
deriving DecidableEq, Repr

/-- `Obstacle::checkCollision`: sphere-vs-AABB via per-axis clamping; the
float test `distance < radius` (`distance = sqrt lengthSq`) is embedded as
the equivalent `0 < radius ∧ lengthSq < radius^2`. -/
def Obstacle.checkCollision (o : Obstacle) (ball : MetaBall) : Bool :=
  if o.isActive = false then false
  else
    let cx := max (o.position.x - o.width / 2)
      (min ball.position.x (o.position.x + o.width / 2))
    let cy := max o.position.y (min ball.position.y (o.position.y + o.height))
    let cz := max (o.position.z - o.depth / 2)
      (min ball.position.z (o.position.z + o.depth / 2))
    let diff : Vec3 := (⟨cx, cy, cz⟩ : Vec3) - ball.position
    decide (0 < ball.radius ∧ diff.lengthSq < ball.radius ^ 2)

/-- A decorative tree (`class Tree`). -/
structure Tree where
  position : Vec3
  height : ℚ
  trunkRadius : ℚ
  foliageRadius : ℚ
  trunkColor : Vec3
  foliageColor : Vec3
deriving DecidableEq, Repr

/-- The `Game::GameState` enumeration. -/
inductive GState where
  | MENU
  | PLAYING
  | GAME_OVER
  | PAUSED
deriving DecidableEq, Repr

/-- The mutable state of `class Game` that `Game::update` touches. -/
structure GameS where
  player : MetaBall
  obstacles : List Obstacle
  collectibles : List Vec3
  trees : List Tree
  grassPatches : List Vec3
  gameSpeed : ℚ
  difficulty : ℚ
  score : ℚ
  distance : ℚ
  gameOver : Bool
  cameraPosition : Vec3
  cameraTarget : Vec3
  cameraAngle : ℚ
  cameraDistance : ℚ
  environmentRotation : ℚ
  environmentRotationSpeed : ℚ
  currentState : GState
deriving DecidableEq, Repr

/-- The obstacle-collision loop of `Game::update`: on a hit the player takes
damage and bounces back (`velocity *= -0.5`), the obstacle deactivates, and
the score penalty is clamped at zero.  Returns the updated player, score and
obstacle list. -/
def runObstacles (ball : MetaBall) (score : ℚ) :
    List Obstacle → MetaBall × ℚ × List Obstacle
  | [] => (ball, score, [])
  | o :: rest =>
    if o.checkCollision ball then
      let b := ball.takeDamage o.damage
      let b := { b with velocity := ball.velocity * (-(1:ℚ)/2) }
      let sc := score - o.damage * 2
      let sc := if sc < 0 then 0 else sc
      let r := runObstacles b sc rest
      (r.1, r.2.1, { o with isActive := false } :: r.2.2)
    else
      let r := runObstacles ball score rest
      (r.1, r.2.1, o :: r.2.2)

/-- The collectible loop of `Game::update`: proximity test
`(player.position - c).length() < radius + 0.5` (embedded squared); a pickup
adds 50 to the score, heals up to 100, and erases the collectible. -/
def runCollectibles (ball : MetaBall) (score : ℚ) :
    List Vec3 → MetaBall × ℚ × List Vec3
  | [] => (ball, score, [])
  | c :: rest =>
    let diff := ball.position - c
    let bound := ball.radius + 1/2
    if decide (0 < bound ∧ diff.lengthSq < bound ^ 2) then
      let b := { ball with health := min (ball.health + 10) 100 }
      runCollectibles b (score + 50) rest
    else
      let r := runCollectibles ball score rest
      (r.1, r.2.1, c :: r.2.2)

/-- The player stage of `Game::update`: `player.update(deltaTime, gravity)`
with `gravity = (0, -9.8, 0)`, followed by the terrain-collision resolution
(clamp `position.y` to `terrainHeight + radius`, zero `velocity.y`, apply
the terrain-normal sliding correction).  `hF` = `terrain.getHeight`, `nF` =
`terrain.getNormal`.  This is the ball state the obstacle loop then tests
against. -/
def playerAfterTerrain (hF : ℚ → ℚ → ℚ) (nF : ℚ → ℚ → Vec3) (dt : ℚ)
    (pl : MetaBall) : MetaBall :=
  let player := pl.update dt ⟨0, -98/10, 0⟩
  let th := hF player.position.x player.position.z
  if player.position.y - player.radius < th then
    let p : Vec3 := ⟨player.position.x, th + player.radius, player.position.z⟩
    let v : Vec3 := ⟨player.velocity.x, 0, player.velocity.z⟩
    let n := nF p.x p.z
    let v := v - n * (Vec3.dotQ v n) * ((1:ℚ)/10)
    { player with position := p, velocity := v }
  else player

/-- `Game::update(deltaTime)`.  Abstract parameters stand for the parts that
leave ℚ or are driven by the unseeded RNG: `sinF`/`cosF` (the camera's float
trig), `hF` = `terrain.getHeight`, `nF` = `terrain.getNormal` (the height map
itself is RNG-generated), and `newObs`/`newCols`/`newTrees`/`newGrass`, the
RNG-generated entities appended by the `generate*` calls at the end (the
source calls `.back()` on these lists, which is undefined for an empty list;
the model spawns nothing in that case, so statements about such states are
about the model only — the theorems below restrict to non-empty lists). -/
def gameUpdate (sinF cosF : ℚ → ℚ) (hF : ℚ → ℚ → ℚ) (nF : ℚ → ℚ → Vec3)
    (newObs : List Obstacle) (newCols : List Vec3) (newTrees : List Tree)
    (newGrass : List Vec3) (dt : ℚ) (s : GameS) : GameS :=
  if s.currentState ≠ GState.PLAYING then s
  else
    let envRot := s.environmentRotation + s.environmentRotationSpeed * dt
    let envRot := if envRot > 360 then envRot - 360 else envRot
    let player := playerAfterTerrain hF nF dt s.player
    let dist := s.distance + s.gameSpeed * dt
    let score := s.score + s.gameSpeed * dt * (1/10)
    let difficulty := s.difficulty + dt * (1/100)
    let gameSpeed := s.gameSpeed + dt * (1/10)
    let ro := runObstacles player score s.obstacles
    let player := ro.1
    let score := ro.2.1
    let obstacles := ro.2.2
    let rc := runCollectibles player score s.collectibles
    let player := rc.1
    let score := rc.2.1
    let collectibles := rc.2.2
    let stateOver :=
      if player.isAlive = false ∨ player.health ≤ 0 then
        (GState.GAME_OVER, true)
      else (s.currentState, s.gameOver)
    let state := stateOver.1
    let over := stateOver.2
    let camAngle := s.cameraAngle + dt * (1/2)
    let camTarget := Vec3.lerpQ s.cameraTarget player.position (dt * 5)
    let offset : Vec3 :=
      ⟨sinF camAngle * s.cameraDistance, 4, cosF camAngle * s.cameraDistance⟩
    let camPos := camTarget + offset
    let obstacles :=
      if (obstacles.getLast?.map
          (fun o => decide (o.position.z > player.position.z - 100))).getD false
      then obstacles ++ newObs else obstacles
    let collectibles :=
      if collectibles.isEmpty ∨
        (collectibles.getLast?.map
          (fun c => decide (c.z > player.position.z - 80))).getD false
      then collectibles ++ newCols else collectibles
    let trees :=
      if (s.trees.getLast?.map
          (fun t => decide (t.position.z > player.position.z - 150))).getD false
      then s.trees ++ newTrees else s.trees
    let grass :=
      if (s.grassPatches.getLast?.map
          (fun g => decide (g.z > player.position.z - 100))).getD false
      then s.grassPatches ++ newGrass else s.grassPatches
    { s with
      player := player, obstacles := obstacles, collectibles := collectibles,
      trees := trees, grassPatches := grass,
      gameSpeed := gameSpeed, difficulty := difficulty, score := score,
      distance := dist, gameOver := over,
      cameraPosition := camPos, cameraTarget := camTarget,
      cameraAngle := camAngle, environmentRotation := envRot,
      currentState := state }

end MainApp

namespace ObjApp

/-- The 3D vector of `src/load_obj_model.cpp`; unlike the game's `Vec3`, its
`operator/` divides without any near-zero guard. -/
structure Vec3 where
  x : ℚ
  y : ℚ
  z : ℚ
deriving DecidableEq, Repr

instance : Add Vec3 := ⟨fun a b => ⟨a.x + b.x, a.y + b.y, a.z + b.z⟩⟩

instance : Sub Vec3 := ⟨fun a b => ⟨a.x - b.x, a.y - b.y, a.z - b.z⟩⟩

/-- `Vec3::operator/` of the OBJ viewer: componentwise division by `scalar`
with no guard; at `scalar = 0` the C++ result has non-finite (inf/NaN)
components, which exact rational division cannot represent — refutations
below therefore use small non-zero divisors, where the embedding is exact. -/
def Vec3.divQ (v : Vec3) (s : ℚ) : Vec3 := ⟨v.x / s, v.y / s, v.z / s⟩

/-- `Vec3::lengthSquared` (`x*x + y*y + z*z`), the radicand of `length()`. -/
def Vec3.lengthSq (v : Vec3) : ℚ := v.x * v.x + v.y * v.y + v.z * v.z

/-- `Vec3::cross`. -/
def Vec3.crossQ (a b : Vec3) : Vec3 :=
  ⟨a.y * b.z - a.z * b.y, a.z * b.x - a.x * b.z, a.x * b.y - a.y * b.x⟩

/-- `Vec3::normalize` of the OBJ viewer: `if (l > 0) return *this / l;
return *this;` — the zero-length fallback is the original vector.  `sqrtF`
stands for the float `sqrt` used by `length()`. -/
def Vec3.normalizeWith (sqrtF : ℚ → ℚ) (v : Vec3) : Vec3 :=
  let l := sqrtF v.lengthSq
  if l > 0 then v.divQ l else v

/-- 2D vector (`struct Vec2`). -/
structure Vec2 where
  x : ℚ
  y : ℚ
deriving DecidableEq, Repr

/-- A vertex of the OBJ viewer (`struct Vertex`). -/
structure Vertex where
  position : Vec3
  normal : Vec3
  texcoord : Vec2
  color : Vec3
deriving DecidableEq, Repr

/-- The CPU-side part of the OBJ viewer's `Mesh`: `loadOBJ` assigns
`vertices` and `indices` and leaves `color` untouched. -/
structure Mesh where
  vertices : List Vertex
  indices : List ℕ
  color : Vec3
deriving DecidableEq, Repr

/-- One `pos/tex/norm` triplet of an `f` line, with the raw 1-based indices
as they appear in the file (`tex`/`norm` are `none` when the sub-field is
empty). -/
structure FaceIdx where
  pos : ℤ
  tex : Option ℤ
  norm : Option ℤ
deriving DecidableEq, Repr

/-- A tokenised line of an OBJ file as `loadOBJ`'s line loop classifies it:
`v`, `vn`, `vt`, `f` (exactly three triplets plus an optional fourth — the
reader extracts at most four), or any other line (ignored). -/
inductive ObjLine where
  | v (x y z : ℚ)
  | vn (x y z : ℚ)
  | vt (u w : ℚ)
  | f (a b c : FaceIdx) (d : Option FaceIdx)
  | other
deriving DecidableEq, Repr

/-- Recogniser for `v` position lines. -/
def ObjLine.isV : ObjLine → Bool
  | .v _ _ _ => true
  | _ => false

/-- The local accumulators of `loadOBJ`'s parsing loop. -/
structure ParseState where
  positions : List Vec3
  normals : List Vec3
  texcoords : List Vec2
  vertices : List Vertex
  indices : List ℕ
deriving DecidableEq, Repr

/-- List lookup at a (possibly negative) integer index. -/
def getZ? (l : List α) (i : ℤ) : Option α :=
  if 0 ≤ i then l.get? i.toNat else none

/-- The `parseVertex` lambda inside `loadOBJ`.  The source indexes
`positions[posIdx]` with no bounds check — an out-of-range index is undefined
behaviour, modelled as `none`.  The `normals`/`texcoords` accesses are
guarded in the source and fall back to `(0,1,0)` / `(0,0)`.  `colorF` stands
for the position-derived debug colour (`|sin 2x|, |cos 2y|, |sin 2z|`), which
uses float trig. -/
def parseFaceVertex (colorF : Vec3 → Vec3) (st : ParseState) (fi : FaceIdx) :
    Option Vertex :=
  let posIdx := fi.pos - 1
  let normIdx : ℤ := match fi.norm with | none => -1 | some n => n - 1
  let texIdx : ℤ := match fi.tex with | none => -1 | some n => n - 1
  match getZ? st.positions posIdx with
  | none => none
  | some pos =>
    let norm :=
      if 0 ≤ normIdx ∧ normIdx < (st.normals.length : ℤ) then
        (getZ? st.normals normIdx).getD ⟨0, 1, 0⟩
      else ⟨0, 1, 0⟩
    let tex :=
      if 0 ≤ texIdx ∧ texIdx < (st.texcoords.length : ℤ) then
        (getZ? st.texcoords texIdx).getD ⟨0, 0⟩
      else ⟨0, 0⟩
    some ⟨pos, norm, tex, colorF pos⟩

/-- One iteration of `loadOBJ`'s line loop. -/
def processLine (colorF : Vec3 → Vec3) (st : ParseState) :
    ObjLine → Option ParseState
  | .v x y z => some { st with positions := st.positions ++ [⟨x, y, z⟩] }
  | .vn x y z => some { st with normals := st.normals ++ [⟨x, y, z⟩] }
  | .vt u w => some { st with texcoords := st.texcoords ++ [⟨u, w⟩] }
  | .f a b c d => do
    let v1 ← parseFaceVertex colorF st a
    let v2 ← parseFaceVertex colorF st b
    let v3 ← parseFaceVertex colorF st c
    let base := st.vertices.length
    let st1 :=
      { st with
        vertices := st.vertices ++ [v1, v2, v3],
        indices := st.indices ++ [base, base + 1, base + 2] }
    match d with
    | none => some st1
    | some fi => do
      let v4 ← parseFaceVertex colorF st fi
      some
        { st1 with
          vertices := st1.vertices ++ [v4],
          indices := st1.indices ++ [base, base + 2, base + 3] }
  | .other => some st

/-- A triangle's contribution in `calculateNormals`: accumulate the face
normal (`nrmF` standing for `Vec3::normalize`) onto its three vertices. -/
def accumFaceNormal (nrmF : Vec3 → Vec3) (verts : List Vertex)
    (i1 i2 i3 : ℕ) : List Vertex :=
  match verts.get? i1, verts.get? i2, verts.get? i3 with
  | some a, some b, some c =>
    let edge1 := b.position - a.position
    let edge2 := c.position - a.position
    let n := nrmF (Vec3.crossQ edge1 edge2)
    let verts := verts.set i1 { a with normal := a.normal + n }
    let verts :=
      match verts.get? i2 with
      | some b2 => verts.set i2 { b2 with normal := b2.normal + n }
      | none => verts
    match verts.get? i3 with
    | some c2 => verts.set i3 { c2 with normal := c2.normal + n }
    | none => verts
  | _, _, _ => verts

/-- The triangle loop of `calculateNormals`, walking `indices` three at a
time. -/
def accumAllNormals (nrmF : Vec3 → Vec3) (verts : List Vertex) :
    List ℕ → List Vertex
  | i1 :: i2 :: i3 :: rest =>
    accumAllNormals nrmF (accumFaceNormal nrmF verts i1 i2 i3) rest
  | _ => verts

/-- `calculateNormals`: zero all normals, accumulate face normals, then
re-normalize each vertex normal. -/
def calculateNormals (nrmF : Vec3 → Vec3) (verts : List Vertex)
    (indices : List ℕ) : List Vertex :=
  let zeroed := verts.map fun v => { v with normal := (⟨0, 0, 0⟩ : Vec3) }
  (accumAllNormals nrmF zeroed indices).map
    fun v => { v with normal := nrmF v.normal }

/-- `OBJLoader::loadOBJ(filepath, mesh)`.  `file = none` models a file that
could not be opened.  The result pairs the returned `bool` with the mesh
after the call; an overall `none` marks an execution that is undefined in
C++ (an out-of-range face index). -/
def loadOBJ (colorF : Vec3 → Vec3) (nrmF : Vec3 → Vec3)
    (file : Option (List ObjLine)) (mesh : Mesh) : Option (Bool × Mesh) :=
  match file with
  | none => some (false, mesh)
  | some lines =>
    match lines.foldlM (processLine colorF) (⟨[], [], [], [], []⟩ : ParseState) with
    | none => none
    | some st =>
      if st.vertices.isEmpty then some (false, mesh)
      else
        let verts :=
          if st.normals.isEmpty then calculateNormals nrmF st.vertices st.indices
          else st.vertices
        some (true, { mesh with vertices := verts, indices := st.indices })

end ObjApp

namespace Viewport

/-- The float value of `glm::pi<float>()` (`0x1.921fb6p+1`). -/
def piF : ℚ := 13176795 / 4194304

/-- `glm::clamp`. -/
def clampQ (v lo hi : ℚ) : ℚ := min (max v lo) hi

/-- The pitch update of `cursor_pos_callback` during a left-button drag:
`pitch -= delta.y * 0.01` followed by the clamp to
`[-π/2 + 0.1, π/2 - 0.1]`. -/
def cursorPitchUpdate (pitch dy : ℚ) : ℚ :=
  clampQ (pitch - dy * (1/100)) (-(piF / 2) + 1/10) (piF / 2 - 1/10)

/-- The distance update of `scroll_callback`:
`distance -= yoffset * (distance * 0.1)` followed by the clamp to
`[0.5, 100]`. -/
def scrollDistanceUpdate (d yoffset : ℚ) : ℚ :=
  clampQ (d - yoffset * (d * (1/10))) (1/2) 100

end Viewport

/-! ### Unfolding lemmas for the vector operations -/

@[simp]
theorem MainApp.Vec3.add_def (a b : MainApp.Vec3) :
    a + b = ⟨a.x + b.x, a.y + b.y, a.z + b.z⟩ := rfl

@[simp]
theorem MainApp.Vec3.sub_def (a b : MainApp.Vec3) :
    a - b = ⟨a.x - b.x, a.y - b.y, a.z - b.z⟩ := rfl

@[simp]
theorem MainApp.Vec3.neg_def (a : MainApp.Vec3) : -a = ⟨-a.x, -a.y, -a.z⟩ := rfl

@[simp]
theorem MainApp.Vec3.smul_def (a : MainApp.Vec3) (s : ℚ) :
    a * s = ⟨a.x * s, a.y * s, a.z * s⟩ := rfl

@[simp]
theorem ObjApp.Vec3.addObj_def (a b : ObjApp.Vec3) :
    a + b = ⟨a.x + b.x, a.y + b.y, a.z + b.z⟩ := rfl

@[simp]
theorem ObjApp.Vec3.subObj_def (a b : ObjApp.Vec3) :
    a - b = ⟨a.x - b.x, a.y - b.y, a.z - b.z⟩ := rfl

/-! ### Concrete inputs used by counterexamples and witnesses -/

/-- The zero function, standing in for `sin`/`cos`/`sqrt` at arguments whose
value is irrelevant to the statement at hand. -/
def zeroF : ℚ → ℚ := fun _ => 0

/-- A flat terrain of constant height 1, a possible value of
`terrain.getHeight`. -/
def flatTerrain : ℚ → ℚ → ℚ := fun _ _ => 1

/-- The upward unit normal, the exact value of `terrain.getNormal` over flat
terrain. -/
def upNormal : ℚ → ℚ → MainApp.Vec3 := fun _ _ => ⟨0, 1, 0⟩

/-- A ball resting with its underside below flat terrain of height 1:
`position.y - radius = 1/2 < 1`. -/
def ballBelow : MainApp.MetaBall :=
  { MainApp.MetaBall.init with position := ⟨0, 1, 0⟩, velocity := ⟨0, -2, 0⟩ }

/-- A far-away active obstacle (at `(5, 0, -30)`, unit extents) that cannot
touch a ball near the origin. -/
def farObstacle : MainApp.Obstacle where
  position := ⟨5, 0, -30⟩
  width := 1
  height := 1
  depth := 1
  color := ⟨9/10, 3/10, 1/10⟩
  isActive := true
  damage := 10
  type := 0

/-- A concrete in-game state (`currentState = PLAYING`) holding `ballBelow`,
one far-away obstacle, a tree and a grass patch (the source keeps all three
lists non-empty, so `Game::update`'s trailing `.back()` calls are
well-defined here), and no collectibles (the source checks
`collectibles.empty()` before calling `.back()`). -/
def gs0 : MainApp.GameS where
  player := ballBelow
  obstacles := [farObstacle]
  collectibles := []
  trees := [⟨⟨60, 0, -20⟩, 3, 1/5, 3/2, ⟨4/10, 2/10, 1/10⟩, ⟨1/10, 5/10, 2/10⟩⟩]
  grassPatches := [⟨60, 1/2, -10⟩]
  gameSpeed := 10
  difficulty := 1
  score := 0
  distance := 0
  gameOver := false
  cameraPosition := ⟨0, 5, 10⟩
  cameraTarget := ⟨0, 2, 0⟩
  cameraAngle := 0
  cameraDistance := 8
  environmentRotation := 0
  environmentRotationSpeed := 1/10
  currentState := MainApp.GState.PLAYING

/-- A concrete target mesh for the OBJ-loader statements. -/
def objMesh0 : ObjApp.Mesh where
  vertices := [⟨⟨1, 2, 3⟩, ⟨0, 1, 0⟩, ⟨0, 0⟩, ⟨1, 1, 1⟩⟩]
  indices := [0, 0, 0]
  color := ⟨1, 1, 1⟩

/-! ### Claim theorems -/

/-- C7: multiplying by `Mat4::identity()` is the identity operation on both
sides: `identity * M = M` and `M * identity = M` (exact, hence within any
floating tolerance). -/
theorem mat4_identity_mul (M : MainApp.Mat4) :
    MainApp.Mat4.mul MainApp.Mat4.identityM M = M ∧
    MainApp.Mat4.mul M MainApp.Mat4.identityM = M := by
  constructor <;> funext i j <;> fin_cases i <;> fin_cases j <;>
    simp +decide [MainApp.Mat4.mul, MainApp.Mat4.identityM]

/-- C9: after `MetaBall::update` on a live ball, whatever the velocity and
time step, the position is clamped into `-10 ≤ x ≤ 10` and `z ≥ -50`. -/
theorem metaball_update_bounds (b : MainApp.MetaBall) (dt : ℚ)
    (g : MainApp.Vec3) (h : b.isAlive = true) :
    -10 ≤ (b.update dt g).position.x ∧ (b.update dt g).position.x ≤ 10 ∧
    -50 ≤ (b.update dt g).position.z := by
  rw [MainApp.MetaBall.update]
  simp only [h, Bool.true_eq_false, if_false]
  split_ifs <;> simp_all

/-- Witness for `metaball_update_bounds` at the default ball, `dt = 0`, zero
gravity. -/
theorem metaball_update_bounds_witness :
    -10 ≤ (MainApp.MetaBall.init.update 0 ⟨0, 0, 0⟩).position.x ∧
    (MainApp.MetaBall.init.update 0 ⟨0, 0, 0⟩).position.x ≤ 10 ∧
    -50 ≤ (MainApp.MetaBall.init.update 0 ⟨0, 0, 0⟩).position.z :=
  metaball_update_bounds MainApp.MetaBall.init 0 ⟨0, 0, 0⟩ rfl

/-- C2 counterexample: for the game's terrain dimensions (`width = 100`,
`depth = 200`, `gridSize = 1`) and a height map that is constantly 1, the
query `x = -50.5` lies strictly outside the grid (left of the world
coordinate `-(width/2) * gridSize = -50` of the leftmost sample column), yet
`getHeight` returns 1, not 0: `static_cast<int>` truncates `-0.5` toward
zero to index 0, so the bounds check passes and the value is extrapolated
with a negative ratio. -/
theorem terrain_outside_zero_cex :
    MainApp.Terrain.getHeight 100 200 1 (fun _ _ => 1) (-101/2) 0 = 1 ∧
    (-101/2 : ℚ) < -(((100 / 2 : ℕ) : ℚ) * 1) ∧ (1 : ℚ) ≠ 0 := by
  refine ⟨?_, by norm_num, by norm_num⟩
  have h : ⌈-((1:ℚ)/2)⌉ = 0 := by norm_num
  norm_num [MainApp.Terrain.getHeight, MainApp.Terrain.gridIx, truncQ, fmodQ, h]

/-- C2 amended: a query whose mapped coordinate `coord + extent/2` is at or
below `-gridSize`, or at or beyond `(extent - 1) * gridSize`, returns
exactly 0.  (Points in the residual strip `-gridSize < coord + extent/2 < 0`
are truncated into boundary cell 0 and extrapolated, as the counterexample
shows.) -/
theorem terrain_outside_zero (w d : ℕ) (g : ℚ) (hm : ℤ → ℤ → ℚ) (x z : ℚ)
    (hw : 1 ≤ w) (hd : 1 ≤ d) (hg : 0 < g)
    (hout : x + ((w / 2 : ℕ) : ℚ) ≤ -g ∨
      ((w : ℚ) - 1) * g ≤ x + ((w / 2 : ℕ) : ℚ) ∨
      z + ((d / 2 : ℕ) : ℚ) ≤ -g ∨
      ((d : ℚ) - 1) * g ≤ z + ((d / 2 : ℕ) : ℚ)) :
    MainApp.Terrain.getHeight w d g hm x z = 0 := by
  rw [MainApp.Terrain.getHeight]
  rw [if_pos]
  rcases hout with h | h | h | h
  · refine Or.inl (truncQ_neg_of_le_neg_one ?_)
    rw [div_le_iff₀ hg]
    linarith
  · refine Or.inr (Or.inl (truncQ_ge_of_ge (by omega) ?_))
    rw [le_div_iff₀ hg]
    push_cast
    linarith
  · exact Or.inr (Or.inr (Or.inl (truncQ_neg_of_le_neg_one (by rw [div_le_iff₀ hg]; linarith))))
  · refine Or.inr (Or.inr (Or.inr (truncQ_ge_of_ge (by omega) ?_)))
    rw [le_div_iff₀ hg]
    push_cast
    linarith

/-- Witness for `terrain_outside_zero`: the query at `x = -60` on the game's
100x200 grid with a constantly-5 height map returns 0. -/
theorem terrain_outside_zero_witness :
    MainApp.Terrain.getHeight 100 200 1 (fun _ _ => 5) (-60) 0 = 0 :=
  terrain_outside_zero 100 200 1 (fun _ _ => 5) (-60) 0 (by norm_num)
    (by norm_num) (by norm_num) (Or.inl (by norm_num))

theorem lerp_between {a b t : ℚ} (h0 : 0 ≤ t) (h1 : t ≤ 1) :
    min a b ≤ a * (1 - t) + b * t ∧ a * (1 - t) + b * t ≤ max a b := by
  rcases le_total a b with h | h
  · rw [min_eq_left h, max_eq_right h]
    constructor <;> nlinarith
  · rw [min_eq_right h, max_eq_left h]
    constructor <;> nlinarith

/-- C5: an in-range query — mapped coordinates non-negative and the cell
indices inside the interpolable range — yields a bilinear value between the
minimum and the maximum of the four corner heights of its cell. -/
theorem terrain_bilinear_bounded (w d : ℕ) (g : ℚ) (hm : ℤ → ℤ → ℚ)
    (x z : ℚ) (hg : 0 < g)
    (hx0 : 0 ≤ x + ((w / 2 : ℕ) : ℚ)) (hz0 : 0 ≤ z + ((d / 2 : ℕ) : ℚ))
    (hxi : MainApp.Terrain.gridIx w g x < (w : ℤ) - 1)
    (hzi : MainApp.Terrain.gridIx d g z < (d : ℤ) - 1) :
    let xi := MainApp.Terrain.gridIx w g x
    let zi := MainApp.Terrain.gridIx d g z
    min (min (hm zi xi) (hm zi (xi + 1)))
        (min (hm (zi + 1) xi) (hm (zi + 1) (xi + 1))) ≤
      MainApp.Terrain.getHeight w d g hm x z ∧
    MainApp.Terrain.getHeight w d g hm x z ≤
      max (max (hm zi xi) (hm zi (xi + 1)))
        (max (hm (zi + 1) xi) (hm (zi + 1) (xi + 1))) := by
  intro xi zi
  have hxq : 0 ≤ (x + ((w / 2 : ℕ) : ℚ)) / g := div_nonneg hx0 (le_of_lt hg)
  have hzq : 0 ≤ (z + ((d / 2 : ℕ) : ℚ)) / g := div_nonneg hz0 (le_of_lt hg)
  have hxi0 : 0 ≤ xi := truncQ_nonneg hxq
  have hzi0 : 0 ≤ zi := truncQ_nonneg hzq
  have hrx := fmodQ_div_mem_Ico hg hx0
  have hrz := fmodQ_div_mem_Ico hg hz0
  rw [MainApp.Terrain.getHeight]
  rw [if_neg (by push_neg; exact ⟨not_lt.mp (by omega), by omega,
    not_lt.mp (by omega), by omega⟩)]
  have htop := lerp_between (a := hm zi xi) (b := hm zi (xi + 1))
    hrx.1 (le_of_lt hrx.2)
  have hbot := lerp_between (a := hm (zi + 1) xi) (b := hm (zi + 1) (xi + 1))
    hrx.1 (le_of_lt hrx.2)
  have hfin := lerp_between
    (a := hm zi xi * (1 - fmodQ (x + ((w / 2 : ℕ) : ℚ)) g / g) +
      hm zi (xi + 1) * (fmodQ (x + ((w / 2 : ℕ) : ℚ)) g / g))
    (b := hm (zi + 1) xi * (1 - fmodQ (x + ((w / 2 : ℕ) : ℚ)) g / g) +
      hm (zi + 1) (xi + 1) * (fmodQ (x + ((w / 2 : ℕ) : ℚ)) g / g))
    hrz.1 (le_of_lt hrz.2)
  constructor
  · refine le_trans (le_min ?_ ?_) hfin.1
    · exact le_trans (min_le_left _ _) htop.1
    · exact le_trans (min_le_right _ _) hbot.1
  · refine le_trans hfin.2 (max_le ?_ ?_)
    · exact le_trans htop.2 (le_max_left _ _)
    · exact le_trans hbot.2 (le_max_right _ _)

/-- Witness for `terrain_bilinear_bounded` at `x = z = 1/2` on the 100x200
unit grid with height map `hm z x = x` (corner heights 50, 51, 50, 51). -/
theorem terrain_bilinear_bounded_witness :
    (50:ℚ) ≤ MainApp.Terrain.getHeight 100 200 1 (fun _ xIdx => (xIdx : ℚ)) (1/2) (1/2) ∧
    MainApp.Terrain.getHeight 100 200 1 (fun _ xIdx => (xIdx : ℚ)) (1/2) (1/2) ≤ 51 := by
  have h := terrain_bilinear_bounded 100 200 1 (fun _ xIdx => (xIdx : ℚ))
    (1/2) (1/2) (by norm_num) (by norm_num) (by norm_num)
    (by norm_num [MainApp.Terrain.gridIx, truncQ])
    (by norm_num [MainApp.Terrain.gridIx, truncQ])
  have hx : MainApp.Terrain.gridIx 100 1 (1/2) = 50 := by
    norm_num [MainApp.Terrain.gridIx, truncQ]
  have hz : MainApp.Terrain.gridIx 200 1 (1/2) = 100 := by
    norm_num [MainApp.Terrain.gridIx, truncQ]
  rw [hx, hz] at h
  norm_num at h
  exact h

/-- C4 counterexample: the OBJ viewer's `Vec3::operator/` is unguarded.
Dividing `(1,1,1)` by the near-zero scalar `1e-5` (below the `1e-4`
threshold the game's guarded implementation uses) yields `(1e5, 1e5, 1e5)` —
neither the zero vector nor the original vector. -/
theorem vec3_div_fallback_cex :
    ObjApp.Vec3.divQ ⟨1, 1, 1⟩ (1/100000) =
      (⟨100000, 100000, 100000⟩ : ObjApp.Vec3) ∧
    |(1:ℚ)/100000| ≤ 1/10000 ∧
    ObjApp.Vec3.divQ ⟨1, 1, 1⟩ (1/100000) ≠ (⟨0, 0, 0⟩ : ObjApp.Vec3) ∧
    ObjApp.Vec3.divQ ⟨1, 1, 1⟩ (1/100000) ≠ (⟨1, 1, 1⟩ : ObjApp.Vec3) := by
  refine ⟨?_, by rw [abs_le]; constructor <;> norm_num, ?_, ?_⟩ <;>
    simp [ObjApp.Vec3.divQ, ObjApp.Vec3.mk.injEq]

/-- C4 amended: the game's `Vec3` (main.cpp) resolves degenerate inputs to
defined fallbacks — division by `|s| ≤ 1e-4` returns the zero vector, and
`normalize` returns `(0,1,0)` whenever the computed length is `≤ 1e-4`.  The
OBJ viewer's `normalize` falls back to the original vector (not a fixed
direction) at non-positive computed length, and its `operator/` is unguarded
(see the counterexample). -/
theorem vec3_degenerate_fallbacks :
    (∀ (v : MainApp.Vec3) (s : ℚ), |s| ≤ 1/10000 →
      v.divQ s = (⟨0, 0, 0⟩ : MainApp.Vec3)) ∧
    (∀ (sqrtF : ℚ → ℚ) (v : MainApp.Vec3), sqrtF v.lengthSq ≤ 1/10000 →
      v.normalizeWith sqrtF = (⟨0, 1, 0⟩ : MainApp.Vec3)) ∧
    (∀ (sqrtF : ℚ → ℚ) (v : ObjApp.Vec3), sqrtF v.lengthSq ≤ 0 →
      v.normalizeWith sqrtF = v) := by
  refine ⟨fun v s hs => ?_, fun sqrtF v hl => ?_, fun sqrtF v hl => ?_⟩
  · rw [MainApp.Vec3.divQ, if_neg (not_lt.mpr hs)]
  · rw [MainApp.Vec3.normalizeWith]
    simp only [if_neg (not_lt.mpr hl)]
  · rw [ObjApp.Vec3.normalizeWith]
    simp only [if_neg (not_lt.mpr hl)]

/-- Witness for `vec3_degenerate_fallbacks`: division of `(5,6,7)` by 0 in
the game returns the zero vector; both normalizes at the zero vector (with
`sqrt 0 = 0`) return their respective fallbacks. -/
theorem vec3_degenerate_fallbacks_witness :
    MainApp.Vec3.divQ ⟨5, 6, 7⟩ 0 = (⟨0, 0, 0⟩ : MainApp.Vec3) ∧
    MainApp.Vec3.normalizeWith zeroF ⟨0, 0, 0⟩ = (⟨0, 1, 0⟩ : MainApp.Vec3) ∧
    ObjApp.Vec3.normalizeWith zeroF ⟨0, 0, 0⟩ = (⟨0, 0, 0⟩ : ObjApp.Vec3) :=
  ⟨vec3_degenerate_fallbacks.1 _ 0 (by norm_num),
   vec3_degenerate_fallbacks.2.1 zeroF _ (by norm_num [zeroF]),
   vec3_degenerate_fallbacks.2.2 zeroF _ (by norm_num [zeroF])⟩

/-- C8: after any cursor-drag update the pitch is clamped to
`[-π/2 + 0.1, π/2 - 0.1]`, so `|pitch| < π/2` (and a fortiori
`< π/2 + ε` for any `ε ≥ 0`); after any scroll update the distance lies in
`[0.5, 100]` — regardless of the magnitude or sign of the deltas. -/
theorem orbit_camera_clamped (pitch dy d yoffset : ℚ) :
    |Viewport.cursorPitchUpdate pitch dy| ≤ Viewport.piF / 2 - 1/10 ∧
    |Viewport.cursorPitchUpdate pitch dy| < Viewport.piF / 2 ∧
    1/2 ≤ Viewport.scrollDistanceUpdate d yoffset ∧
    Viewport.scrollDistanceUpdate d yoffset ≤ 100 := by
  have h1 : Viewport.cursorPitchUpdate pitch dy ≤ Viewport.piF / 2 - 1/10 :=
    min_le_right _ _
  have h2 : -(Viewport.piF / 2) + 1/10 ≤ Viewport.cursorPitchUpdate pitch dy :=
    le_min (le_max_right _ _) (by norm_num [Viewport.piF])
  have h3 : 1/2 ≤ Viewport.scrollDistanceUpdate d yoffset :=
    le_min (le_max_right _ _) (by norm_num)
  have h4 : Viewport.scrollDistanceUpdate d yoffset ≤ 100 := min_le_right _ _
  have habs : |Viewport.cursorPitchUpdate pitch dy| ≤ Viewport.piF / 2 - 1/10 :=
    abs_le.mpr ⟨by linarith, h1⟩
  exact ⟨habs, lt_of_le_of_lt habs (by norm_num [Viewport.piF]), h3, h4⟩

theorem length_flatMap_const {α β : Type} (f : α → List β) (k : ℕ)
    (hf : ∀ a, (f a).length = k) :
    ∀ l : List α, (l.flatMap f).length = k * l.length := by
  intro l
  induction l with
  | nil => simp
  | cons a t ih =>
    rw [List.flatMap_cons, List.length_append, hf, ih, List.length_cons]
    ring

/-- C6: for the cube, pyramid and cylinder generators (segment count ≥ 3 for
the cylinder, the only one that takes a count), the index list's length is
divisible by 3 and every index is strictly below the vertex count. -/
theorem generator_indices_valid :
    (MainApp.generateCube.indices.length % 3 = 0 ∧
      ∀ i ∈ MainApp.generateCube.indices,
        i < MainApp.generateCube.vertices.length) ∧
    (MainApp.generatePyramid.indices.length % 3 = 0 ∧
      ∀ i ∈ MainApp.generatePyramid.indices,
        i < MainApp.generatePyramid.vertices.length) ∧
    (∀ (cosF sinF : ℚ → ℚ) (segments : ℕ), 3 ≤ segments →
      (MainApp.generateCylinder cosF sinF segments).indices.length % 3 = 0 ∧
      ∀ i ∈ (MainApp.generateCylinder cosF sinF segments).indices,
        i < (MainApp.generateCylinder cosF sinF segments).vertices.length) := by
  refine ⟨⟨by decide, by decide⟩, ⟨by decide, by decide⟩,
    fun cosF sinF segments _ => ⟨?_, fun i hi => ?_⟩⟩
  · have h := length_flatMap_const MainApp.cylinderIdxAt 6 (fun _ => rfl)
      (List.range segments)
    simp only [MainApp.generateCylinder] at h ⊢
    rw [h, List.length_range]
    omega
  · have hv := length_flatMap_const
      (MainApp.cylinderVertsAt cosF sinF segments) 2 (fun _ => rfl)
      (List.range (segments + 1))
    simp only [MainApp.generateCylinder] at hv hi ⊢
    rw [hv, List.length_range]
    rw [List.mem_flatMap] at hi
    obtain ⟨j, hj, hmem⟩ := hi
    rw [List.mem_range] at hj
    simp only [MainApp.cylinderIdxAt, List.mem_cons, List.mem_singleton,
      List.not_mem_nil, or_false] at hmem
    omega

/-- Witness for `generator_indices_valid` at `segments = 3` (with the zero
function for both trig parameters). -/
theorem generator_indices_valid_witness :
    (MainApp.generateCylinder zeroF zeroF 3).indices.length % 3 = 0 ∧
    ∀ i ∈ (MainApp.generateCylinder zeroF zeroF 3).indices,
      i < (MainApp.generateCylinder zeroF zeroF 3).vertices.length :=
  generator_indices_valid.2.2 zeroF zeroF 3 (by norm_num)

theorem parseFaceVertex_empty (colorF : ObjApp.Vec3 → ObjApp.Vec3)
    (st : ObjApp.ParseState) (fi : ObjApp.FaceIdx) (h : st.positions = []) :
    ObjApp.parseFaceVertex colorF st fi = none := by
  have hz : ObjApp.getZ? st.positions (fi.pos - 1) = none := by
    rw [h, ObjApp.getZ?]
    simp
  simp only [ObjApp.parseFaceVertex, hz]

theorem processLine_f_empty (colorF : ObjApp.Vec3 → ObjApp.Vec3)
    (st : ObjApp.ParseState) (a b c : ObjApp.FaceIdx)
    (d : Option ObjApp.FaceIdx) (h : st.positions = []) :
    ObjApp.processLine colorF st (ObjApp.ObjLine.f a b c d) = none := by
  simp only [ObjApp.processLine, parseFaceVertex_empty colorF st a h]
  rfl

theorem foldlM_processLine_no_v (colorF : ObjApp.Vec3 → ObjApp.Vec3) :
    ∀ (lines : List ObjApp.ObjLine), (∀ l ∈ lines, l.isV = false) →
      ∀ (st st' : ObjApp.ParseState), st.positions = [] →
        lines.foldlM (ObjApp.processLine colorF) st = some st' →
        st'.positions = [] ∧ st'.vertices = st.vertices := by
  intro lines
  induction lines with
  | nil =>
    intro _ st st' hpos h
    simp only [List.foldlM_nil] at h
    cases h
    exact ⟨hpos, rfl⟩
  | cons l rest ih =>
    intro hnov st st' hpos h
    rw [List.foldlM_cons] at h
    have hrest : ∀ l' ∈ rest, l'.isV = false :=
      fun l' hl' => hnov l' (List.mem_cons_of_mem _ hl')
    cases l with
    | v x y z =>
      exact absurd (hnov _ (List.mem_cons_self _ _)) (by simp [ObjApp.ObjLine.isV])
    | vn x y z =>
      simp only [ObjApp.processLine] at h
      simp only [Option.pure_def, Option.bind_eq_bind, Option.some_bind] at h
      exact ih hrest { st with normals := st.normals ++ [⟨x, y, z⟩] } st' hpos h
    | vt u w =>
      simp only [ObjApp.processLine] at h
      simp only [Option.pure_def, Option.bind_eq_bind, Option.some_bind] at h
      exact ih hrest { st with texcoords := st.texcoords ++ [⟨u, w⟩] } st' hpos h
    | f a b c d =>
      rw [processLine_f_empty colorF st a b c d hpos] at h
      exact absurd h (by simp)
    | other =>
      simp only [ObjApp.processLine] at h
      simp only [Option.pure_def, Option.bind_eq_bind, Option.some_bind] at h
      exact ih hrest st st' hpos h

/-- C3: `OBJLoader::loadOBJ` fails with the target mesh untouched when the
file cannot be opened, and likewise when the parsed line list contains no
`v` position line, provided the run is well-defined (result `some _`; a
face line referencing the empty position list is the source's unchecked
out-of-range access, i.e. undefined behaviour, modelled as `none`). -/
theorem obj_load_failure_unchanged :
    (∀ (colorF nrmF : ObjApp.Vec3 → ObjApp.Vec3) (m : ObjApp.Mesh),
      ObjApp.loadOBJ colorF nrmF none m = some (false, m)) ∧
    (∀ (colorF nrmF : ObjApp.Vec3 → ObjApp.Vec3)
      (lines : List ObjApp.ObjLine) (m : ObjApp.Mesh)
      (res : Bool × ObjApp.Mesh),
      (∀ l ∈ lines, l.isV = false) →
      ObjApp.loadOBJ colorF nrmF (some lines) m = some res →
      res = (false, m)) := by
  constructor
  · intro colorF nrmF m
    rfl
  · intro colorF nrmF lines m res hnov h
    rw [ObjApp.loadOBJ] at h
    cases hfold : lines.foldlM (ObjApp.processLine colorF)
        (⟨[], [], [], [], []⟩ : ObjApp.ParseState) with
    | none =>
      rw [hfold] at h
      exact absurd h (by simp)
    | some st =>
      rw [hfold] at h
      have hst := foldlM_processLine_no_v colorF lines hnov _ st rfl hfold
      have hempty : st.vertices.isEmpty = true := by
        have hv : st.vertices = [] := hst.2
        rw [hv]
        rfl
      simp only [hempty, if_true] at h
      exact (Option.some_inj.mp h).symm

/-- Witness for `obj_load_failure_unchanged`: an unopenable file, and a
two-line file (`vn`, junk) with no `v` line, both fail and leave the
concrete mesh `objMesh0` unchanged. -/
theorem obj_load_failure_unchanged_witness :
    ObjApp.loadOBJ (fun v => v) (fun v => v) none objMesh0 =
      some (false, objMesh0) ∧
    ((false, objMesh0) : Bool × ObjApp.Mesh) = (false, objMesh0) :=
  ⟨obj_load_failure_unchanged.1 (fun v => v) (fun v => v) objMesh0,
   obj_load_failure_unchanged.2 (fun v => v) (fun v => v)
     [ObjApp.ObjLine.vn 0 0 0, ObjApp.ObjLine.other] objMesh0
     (false, objMesh0)
     (by intro l hl; fin_cases hl <;> rfl)
     (by rfl)⟩

theorem runObstacles_score_nonneg :
    ∀ (l : List MainApp.Obstacle) (b : MainApp.MetaBall) (sc : ℚ), 0 ≤ sc →
      0 ≤ (MainApp.runObstacles b sc l).2.1 := by
  intro l
  induction l with
  | nil =>
    intro b sc h
    simpa [MainApp.runObstacles] using h
  | cons o rest ih =>
    intro b sc h
    simp only [MainApp.runObstacles]
    split
    · dsimp only
      apply ih
      split_ifs with hneg
      · exact le_rfl
      · linarith
    · dsimp only
      exact ih b sc h

theorem runCollectibles_score_nonneg :
    ∀ (l : List MainApp.Vec3) (b : MainApp.MetaBall) (sc : ℚ), 0 ≤ sc →
      0 ≤ (MainApp.runCollectibles b sc l).2.1 := by
  intro l
  induction l with
  | nil =>
    intro b sc h
    simpa [MainApp.runCollectibles] using h
  | cons c rest ih =>
    intro b sc h
    simp only [MainApp.runCollectibles]
    split
    · exact ih _ (sc + 50) (by linarith)
    · dsimp only
      exact ih b sc h

/-- C10: one `Game::update` step in the PLAYING state with `dt ≥ 0` keeps a
non-negative score non-negative, given the game-speed invariant
`gameSpeed ≥ 0` (established at construction with 10 and only ever
increased by `dt * 0.1`): the progression term adds a non-negative amount,
the obstacle penalty is clamped at zero, and pickups add 50. -/
theorem game_update_score_nonneg (sinF cosF : ℚ → ℚ) (hF : ℚ → ℚ → ℚ)
    (nF : ℚ → ℚ → MainApp.Vec3) (newObs : List MainApp.Obstacle)
    (newCols : List MainApp.Vec3) (newTrees : List MainApp.Tree)
    (newGrass : List MainApp.Vec3) (dt : ℚ) (s : MainApp.GameS)
    (hstate : s.currentState = MainApp.GState.PLAYING) (hdt : 0 ≤ dt)
    (hscore : 0 ≤ s.score) (hspeed : 0 ≤ s.gameSpeed) :
    0 ≤ (MainApp.gameUpdate sinF cosF hF nF newObs newCols newTrees newGrass
      dt s).score ∧
    0 ≤ (MainApp.gameUpdate sinF cosF hF nF newObs newCols newTrees newGrass
      dt s).gameSpeed := by
  rw [MainApp.gameUpdate]
  rw [if_neg (by simp [hstate])]
  refine ⟨?_, by dsimp only; nlinarith⟩
  dsimp only
  apply runCollectibles_score_nonneg
  apply runObstacles_score_nonneg
  nlinarith

/-- Witness for `game_update_score_nonneg` at the concrete state `gs0`
(`score = 0`, `gameSpeed = 10`) with `dt = 0`. -/
theorem game_update_score_nonneg_witness :
    0 ≤ (MainApp.gameUpdate zeroF zeroF flatTerrain upNormal [] [] [] []
      0 gs0).score ∧
    0 ≤ (MainApp.gameUpdate zeroF zeroF flatTerrain upNormal [] [] [] []
      0 gs0).gameSpeed :=
  game_update_score_nonneg zeroF zeroF flatTerrain upNormal [] [] [] [] 0 gs0
    rfl le_rfl le_rfl (by norm_num [gs0])

/-- C1 counterexample: in the concrete state `gs0` (non-empty obstacle,
tree and grass lists, the one obstacle far away) over flat terrain of
height 1 the pre-step ball satisfies `position.y - radius = 1/2 < 1`
(`dt = 0 ≥ 0`), but after one `Game::update` the ball's `velocity.y` is `0`,
not the claimed `-elasticity * velocity.y = -(0.8 * -2) = 1.6`: the terrain
collision branch zeroes `velocity.y` instead of reflecting it. -/
theorem ball_bounce_cex :
    ((0:ℚ) ≤ 0) ∧
    gs0.player.position.y - gs0.player.radius <
      flatTerrain gs0.player.position.x gs0.player.position.z ∧
    (MainApp.gameUpdate zeroF zeroF flatTerrain upNormal [] [] [] []
      0 gs0).player.velocity.y = 0 ∧
    -(gs0.player.elasticity * gs0.player.velocity.y) ≠ 0 := by
  refine ⟨le_rfl,
    by norm_num [gs0, ballBelow, MainApp.MetaBall.init, flatTerrain], ?_,
    by norm_num [gs0, ballBelow, MainApp.MetaBall.init]⟩
  norm_num [MainApp.gameUpdate, MainApp.playerAfterTerrain, gs0, ballBelow,
    farObstacle, MainApp.MetaBall.init, MainApp.MetaBall.update,
    MainApp.runObstacles, MainApp.runCollectibles,
    MainApp.Obstacle.checkCollision, MainApp.Vec3.lengthSq,
    MainApp.Vec3.lerpQ, MainApp.Vec3.dotQ, zeroF, flatTerrain, upNormal,
    decide_eq_true_eq]

theorem runCollectibles_preserves_phys :
    ∀ (l : List MainApp.Vec3) (b : MainApp.MetaBall) (sc : ℚ),
      (MainApp.runCollectibles b sc l).1.position = b.position ∧
      (MainApp.runCollectibles b sc l).1.velocity = b.velocity ∧
      (MainApp.runCollectibles b sc l).1.radius = b.radius := by
  intro l
  induction l with
  | nil =>
    intro b sc
    exact ⟨rfl, rfl, rfl⟩
  | cons c rest ih =>
    intro b sc
    simp only [MainApp.runCollectibles]
    split
    · exact ih _ (sc + 50)
    · dsimp only
      exact ih b sc

theorem runObstacles_no_hit :
    ∀ (l : List MainApp.Obstacle) (b : MainApp.MetaBall) (sc : ℚ),
      (∀ o ∈ l, o.checkCollision b = false) →
      MainApp.runObstacles b sc l = (b, sc, l) := by
  intro l
  induction l with
  | nil =>
    intro b sc _
    rfl
  | cons o rest ih =>
    intro b sc h
    have ho : o.checkCollision b = false := h o (List.mem_cons_self _ _)
    simp only [MainApp.runObstacles, ho, Bool.false_eq_true, if_false]
    rw [ih b sc (fun o2 ho2 => h o2 (List.mem_cons_of_mem _ ho2))]

/-- C1 amended: after one `Game::update` step (PLAYING state, list state in
which the trailing `.back()` spawn checks are well-defined, and no obstacle
colliding with the terrain-resolved ball) in which the ball integrated by
`MetaBall::update` ends with `position.y - radius < terrainHeight` at its
`(x, z)`, the post-step position is clamped to `terrainHeight + radius` (so
`position.y - radius = terrainHeight ≥ terrainHeight - 1e-4`), but
`velocity.y` is set to 0 and then adjusted by the terrain-normal sliding
term `v -= n * dot(v, n) * 0.1` — it is not reflected by `-elasticity`.
(A reflective bounce scaled by elasticity and a further 0.95 friction
factor exists only against the fixed plane `y = 0` inside
`MetaBall::update` itself.) -/
theorem ball_terrain_clamp (sinF cosF : ℚ → ℚ) (hF : ℚ → ℚ → ℚ)
    (nF : ℚ → ℚ → MainApp.Vec3) (newObs : List MainApp.Obstacle)
    (newCols : List MainApp.Vec3) (newTrees : List MainApp.Tree)
    (newGrass : List MainApp.Vec3) (dt : ℚ) (s : MainApp.GameS)
    (hstate : s.currentState = MainApp.GState.PLAYING)
    (_hobsne : s.obstacles ≠ [])
    (_htreesne : s.trees ≠ [])
    (_hgrassne : s.grassPatches ≠ [])
    (hbelow : (s.player.update dt ⟨0, -98/10, 0⟩).position.y -
        (s.player.update dt ⟨0, -98/10, 0⟩).radius <
      hF (s.player.update dt ⟨0, -98/10, 0⟩).position.x
        (s.player.update dt ⟨0, -98/10, 0⟩).position.z)
    (hnohit : ∀ o ∈ s.obstacles,
      o.checkCollision (MainApp.playerAfterTerrain hF nF dt s.player) =
        false) :
    let b := s.player.update dt ⟨0, -98/10, 0⟩
    let th := hF b.position.x b.position.z
    let n := nF b.position.x b.position.z
    let v0 : MainApp.Vec3 := ⟨b.velocity.x, 0, b.velocity.z⟩
    let post := MainApp.gameUpdate sinF cosF hF nF newObs newCols newTrees
      newGrass dt s
    post.player.position =
      (⟨b.position.x, th + b.radius, b.position.z⟩ : MainApp.Vec3) ∧
    th - 1/10000 ≤ post.player.position.y - post.player.radius ∧
    post.player.velocity = v0 - n * (MainApp.Vec3.dotQ v0 n) * ((1:ℚ)/10) := by
  intro b th n v0 post
  have hPA : MainApp.playerAfterTerrain hF nF dt s.player =
      { b with
        position := ⟨b.position.x, th + b.radius, b.position.z⟩,
        velocity := v0 - n * (MainApp.Vec3.dotQ v0 n) * ((1:ℚ)/10) } := by
    rw [MainApp.playerAfterTerrain]
    simp only [if_pos hbelow]
  have hno := runObstacles_no_hit s.obstacles
    (MainApp.playerAfterTerrain hF nF dt s.player)
    (s.score + s.gameSpeed * dt * (1/10)) hnohit
  have hpres := runCollectibles_preserves_phys s.collectibles
    (MainApp.playerAfterTerrain hF nF dt s.player)
    (s.score + s.gameSpeed * dt * (1/10))
  have hpost : post = MainApp.gameUpdate sinF cosF hF nF newObs newCols
    newTrees newGrass dt s := rfl
  rw [MainApp.gameUpdate, if_neg (by simp [hstate])] at hpost
  simp only [hno] at hpost
  rw [hpost]
  dsimp only
  refine ⟨?_, ?_, ?_⟩
  · rw [hpres.1, hPA]
  · rw [hpres.1, hpres.2.2, hPA]
    dsimp only
    norm_num
  · rw [hpres.2.1, hPA]

/-- Witness for `ball_terrain_clamp` at `gs0` (non-empty obstacle, tree and
grass lists; the single obstacle does not touch the ball) over flat terrain
of height 1 with `dt = 0`: the post-step position is `(0, 3/2, 0)`. -/
theorem ball_terrain_clamp_witness :
    (MainApp.gameUpdate zeroF zeroF flatTerrain upNormal [] [] [] []
      0 gs0).player.position = (⟨0, 3/2, 0⟩ : MainApp.Vec3) := by
  have h := ball_terrain_clamp zeroF zeroF flatTerrain upNormal [] [] [] []
    0 gs0 rfl (by simp [gs0]) (by simp [gs0]) (by simp [gs0])
    (by norm_num [gs0, ballBelow, MainApp.MetaBall.init,
      MainApp.MetaBall.update, flatTerrain])
    (by
      intro o ho
      rw [show gs0.obstacles = [farObstacle] from rfl,
        List.mem_singleton] at ho
      subst ho
      norm_num [MainApp.Obstacle.checkCollision, MainApp.playerAfterTerrain,
        farObstacle, gs0, ballBelow, MainApp.MetaBall.init,
        MainApp.MetaBall.update, flatTerrain, upNormal, zeroF,
        MainApp.Vec3.lengthSq, MainApp.Vec3.dotQ, decide_eq_true_eq])
  refine h.1.trans ?_
  norm_num [gs0, ballBelow, MainApp.MetaBall.init, MainApp.MetaBall.update,
    flatTerrain]

end RotSphere
